import Mathlib

/-!
Shallow embedding of the YouTube channel-discovery pipeline in `src/main.py`
(class `YouTubeAnalyzer`): the contact extractor `extract_contact_info`, the
per-channel inspector `get_channel_info`, the record shaping inside
`get_channels_from_country`, and the paginated discovery loop itself.

External collaborators (the platform search and metadata calls) are passed in
as functions; the search collaborator is indexed by the call number, since the
source issues the same request repeatedly and a live or mocked collaborator may
answer each call differently.  The unbounded `while` loop is embedded with a
fuel parameter: `none` means the loop had not exited after `fuel` iterations.
Python exceptions are embedded with `Except`; a JSON numeric field is either
missing, a parsable number, or a non-parsable value on which Python `int()`
raises.  Log calls are accumulated in an event list, and each invocation of the
metadata collaborator is recorded in a call trace so that claims about how
often a channel is fetched can be stated.
-/

set_option maxRecDepth 8000

inductive LogLevel where
  | info
  | warning
  | error
deriving DecidableEq, Repr

structure LogEvent where
  level : LogLevel
  msg : String
deriving DecidableEq, Repr

/-- A JSON numeric field as consumed by `int(d.get(field, 0))`: absent,
a parsable number, or a non-parsable value (on which `int` raises). -/
inductive JNum where
  | missing
  | num (n : Nat)
  | bad (s : String)
deriving DecidableEq, Repr

/-- Python `int(statistics.get(field, 0))`: 0 when the field is missing, the parsed
value when parsable, an exception (`Except.error`) when non-parsable. -/
def parseIntD0 : JNum → Except String Nat
  | .missing => .ok 0
  | .num n => .ok n
  | .bad s => .error s

/-! ## The contact extractor (`extract_contact_info`)

The two patterns of the source,
`r'\b[A-Za-z0-9._%+-]+@[A-Za-z0-9.-]+\.[A-Z|a-z]{2,7}\b'` and
`r'https?://(?:www\.)?(?!youtube\.com|youtu\.be)[^\s<>"]+'`, are compiled by
hand into leftmost-search backtracking matchers with exactly the semantics of
`re.search` on them: positions are tried left to right; at a position, the
optional `www.` group is tried greedily and then empty; greedy repetitions
backtrack from the longest run downward.
-/

/-- Class `\s` of the source patterns (ASCII whitespace). -/
def isSpaceCh (c : Char) : Bool :=
  c = ' ' || c = '\t' || c = '\n' || c = '\r' || c = '\x0b' || c = '\x0c'

/-- A character at which the website match stops: `[^\s<>"]` complement. -/
def urlStopCh (c : Char) : Bool :=
  isSpaceCh c || c = '<' || c = '>' || c = '"'

/-- A character admitted by the `[^\s<>"]` class of the website pattern. -/
def urlBodyChar (c : Char) : Bool := !(urlStopCh c)

/-- Predicate `hasPre p l` holds when the pattern characters `p` are the first
characters of `l` (regex literal matching at the current position). -/
def hasPre : List Char → List Char → Bool
  | [], _ => true
  | _ :: _, [] => false
  | p :: ps, c :: cs => p == c && hasPre ps cs

/-- The negative lookahead `(?!youtube\.com|youtu\.be)` of the website
pattern: true when the text at the current position begins with one of the
excluded hosts. -/
def excludedHost (l : List Char) : Bool :=
  hasPre "youtube.com".data l || hasPre "youtu.be".data l

/-- One alternative of the optional `www.` group: `www` already consumed
(`www` is `[]` for the empty alternative), then the lookahead and the greedy
nonempty `[^\s<>"]+` run at `k`. -/
def wsTry (www k : List Char) : Option (List Char) :=
  if excludedHost k then none
  else match k.takeWhile urlBodyChar with
    | [] => none
    | body => some (www ++ body)

/-- Group `(?:www\.)?(?!youtube\.com|youtu\.be)[^\s<>"]+` at the position after the
scheme, with the greedy-then-empty backtracking of the optional group. -/
def wsTail (rest : List Char) : Option (List Char) :=
  if hasPre "www.".data rest then
    match wsTry "www.".data (rest.drop 4) with
    | some m => some m
    | none => wsTry [] rest
  else wsTry [] rest

/-- The whole website pattern anchored at one position. -/
def websiteMatchAt (l : List Char) : Option (List Char) :=
  if hasPre "https://".data l then
    (wsTail (l.drop 8)).map (fun m => "https://".data ++ m)
  else if hasPre "http://".data l then
    (wsTail (l.drop 7)).map (fun m => "http://".data ++ m)
  else none

/-- Search as `re.search`: try each start position left to right. -/
def searchIn (f : List Char → Option (List Char)) : List Char → Option (List Char)
  | [] => f []
  | c :: rest =>
    match f (c :: rest) with
    | some m => some m
    | none => searchIn f rest

/-- Run of `re.search(website_pattern, ·)` on the character list of the input. -/
def websiteSearch (l : List Char) : Option (List Char) :=
  searchIn websiteMatchAt l

/-- Class `\w` for the `\b` boundaries of the email pattern. -/
def isWordCh (c : Char) : Bool := c.isAlpha || c.isDigit || c = '_'

/-- The local-part class `[A-Za-z0-9._%+-]`. -/
def localCh (c : Char) : Bool :=
  c.isAlpha || c.isDigit || c = '.' || c = '_' || c = '%' || c = '+' || c = '-'

/-- The domain class `[A-Za-z0-9.-]`. -/
def domainCh (c : Char) : Bool :=
  c.isAlpha || c.isDigit || c = '.' || c = '-'

/-- The top-level-label class `[A-Z|a-z]` (the source class literally includes
the bar character). -/
def tldCh (c : Char) : Bool := c.isAlpha || c = '|'

/-- Boundary `\b`: the characters on the two sides of the position differ in
word-ness (absent neighbours count as non-word). -/
def boundaryB (prev next : Option Char) : Bool :=
  (match prev with | some c => isWordCh c | none => false)
    != (match next with | some c => isWordCh c | none => false)

/-- Candidate greedy repetition counts `m, m-1, ..., 1`. -/
def downFrom1 (m : Nat) : List Nat := (List.range m).map (fun j => m - j)

/-- Candidate repetition counts `m, m-1, ..., 2` for `{2,7}`. -/
def downFrom2 (m : Nat) : List Nat := (List.range (m - 1)).map (fun j => m - j)

/-- Piece `[A-Z|a-z]{2,7}\b` after the final dot, greedy with backtracking. -/
def tldTry (s3 : List Char) : Option (List Char) :=
  (downFrom2 (min 7 (s3.takeWhile tldCh).length)).findSome? (fun t =>
    match (s3.take t).getLast? with
    | none => none
    | some lastc =>
      if boundaryB (some lastc) (s3.drop t).head? then some (s3.take t) else none)

/-- Piece `[A-Za-z0-9.-]+\.[A-Z|a-z]{2,7}\b` after the `@`, with the greedy `+`
backtracking from the longest domain run downward. -/
def domainTry (s2 : List Char) : Option (List Char) :=
  (downFrom1 (s2.takeWhile domainCh).length).findSome? (fun ld =>
    match s2.drop ld with
    | '.' :: s3 => (tldTry s3).map (fun tld => s2.take ld ++ '.' :: tld)
    | _ => none)

/-- The whole email pattern anchored at one position (`prev` is the character
before the position, for the leading `\b`).  `[A-Za-z0-9._%+-]+` need not
backtrack: `@` is not in the class, so only the maximal run can precede it. -/
def emailMatchAt (prev : Option Char) (l : List Char) : Option (List Char) :=
  if boundaryB prev l.head? then
    match l.takeWhile localCh with
    | [] => none
    | lrun =>
      match l.drop lrun.length with
      | '@' :: s2 => (domainTry s2).map (fun d => lrun ++ '@' :: d)
      | _ => none
  else none

/-- Run of `re.search(email_pattern, ·)`, threading the previous character for `\b`. -/
def emailSearchAux (prev : Option Char) : List Char → Option (List Char)
  | [] => emailMatchAt prev []
  | c :: rest =>
    match emailMatchAt prev (c :: rest) with
    | some m => some m
    | none => emailSearchAux (some c) rest

def emailSearch (l : List Char) : Option (List Char) :=
  emailSearchAux none l

structure ContactInfo where
  email : String
  website : String
deriving DecidableEq, Repr

/-- Method `extract_contact_info`: pure and total by construction; each field is the
first match of its pattern, or the sentinel. -/
def extract_contact_info (description : String) : ContactInfo :=
  { email :=
      match emailSearch description.data with
      | some m => String.mk m
      | none => "N/A",
    website :=
      match websiteSearch description.data with
      | some m => String.mk m
      | none => "N/A" }

/-- The spec-side shape of a returned website string (named after the spec's
words, to be compared with what `websiteSearch` actually returns): an http or
https URL whose text directly after the scheme is not a bare excluded host,
made only of characters that are not whitespace or angle/quote characters. -/
def specWebsiteTail (t : List Char) : Bool :=
  (!t.isEmpty) && !(hasPre "youtube.com".data t) && !(hasPre "youtu.be".data t)

def specWebsiteShape (m : List Char) : Bool :=
  (if hasPre "https://".data m then specWebsiteTail (m.drop 8)
   else if hasPre "http://".data m then specWebsiteTail (m.drop 7)
   else false)
  && m.all urlBodyChar

/-! ## The metadata collaborator's data shapes and the inspector -/

structure Snippet where
  title : Option String
  description : Option String
  country : Option String
  publishedAt : Option String
  customUrl : Option String
deriving DecidableEq, Repr

structure Statistics where
  subscriberCount : JNum
  viewCount : JNum
  videoCount : JNum
deriving DecidableEq, Repr

structure ChannelData where
  snippet : Snippet
  statistics : Statistics
deriving DecidableEq, Repr

structure ChannelsResponse where
  items : List ChannelData
deriving DecidableEq, Repr

/-- The dict returned by `get_channel_info` in the successful case. -/
structure ChannelInfo where
  title : Option String
  description : String
  country : String
  publishedAt : Option String
  customUrl : String
  statistics : Statistics
deriving DecidableEq, Repr

/-- Method `get_channel_info`: fetch snippet+statistics, admission-gate on the parsed
subscriber count, shape the intermediate dict.  The empty dict (falsy) is
`none`; the second component is what was logged.  A collaborator error or a
non-parsable subscriber count is caught and logged, yielding `none`. -/
def get_channel_info (fetch : String → Except String ChannelsResponse)
    (channel_id : String) : Option ChannelInfo × List LogEvent :=
  match fetch channel_id with
  | .error e =>
    (none, [⟨.error, "HTTP error getting channel info for " ++ channel_id ++ ": " ++ e⟩])
  | .ok response =>
    match response.items with
    | [] => (none, [⟨.warning, "No information found for channel " ++ channel_id⟩])
    | channel_data :: _ =>
      match parseIntD0 channel_data.statistics.subscriberCount with
      | .error e =>
        (none, [⟨.error, "Error getting channel info for " ++ channel_id ++ ": " ++ e⟩])
      | .ok subscriber_count =>
        if subscriber_count > 50000 then (none, [])
        else
          (some { title := channel_data.snippet.title,
                  description := (channel_data.snippet.description).getD "",
                  country := (channel_data.snippet.country).getD "N/A",
                  publishedAt := channel_data.snippet.publishedAt,
                  customUrl := (channel_data.snippet.customUrl).getD
                      ("https://youtube.com/channel/" ++ channel_id),
                  statistics := channel_data.statistics }, [])

/-! ## The search collaborator's shapes and the discovery loop -/

structure SearchSnippet where
  channelId : String
deriving DecidableEq, Repr

structure SearchItem where
  snippet : SearchSnippet
deriving DecidableEq, Repr

structure SearchResponse where
  items : List SearchItem
deriving DecidableEq, Repr

/-- The output record appended inside `get_channels_from_country`.  `name` and
`createDate` are `Option String`: `channel_info.get('title', 'N/A')` returns
the stored value, which is Python `None` when the snippet had no title, because
the key is always present in the dict built by `get_channel_info`. -/
structure ChannelRecord where
  channelId : String
  name : Option String
  url : String
  country : String
  createDate : Option String
  subscribers : Nat
  totalViews : Nat
  totalVideos : Nat
  email : String
  website : String
deriving DecidableEq, Repr

/-- The dict literal of lines 139-150: the three `int(...)` calls evaluate in
order and may raise (→ `Except.error` with the offending value). -/
def buildRecord (channel_id : String) (info : ChannelInfo) (contact : ContactInfo) :
    Except String ChannelRecord :=
  match parseIntD0 info.statistics.subscriberCount with
  | .error e => .error e
  | .ok subscribers =>
    match parseIntD0 info.statistics.viewCount with
    | .error e => .error e
    | .ok totalViews =>
      match parseIntD0 info.statistics.videoCount with
      | .error e => .error e
      | .ok totalVideos =>
        .ok { channelId := channel_id, name := info.title, url := info.customUrl,
              country := info.country, createDate := info.publishedAt,
              subscribers := subscribers, totalViews := totalViews,
              totalVideos := totalVideos, email := contact.email,
              website := contact.website }

/-- The loop state of `get_channels_from_country`: the accumulated records,
the seen set, the log stream so far, and the trace of metadata-collaborator
invocations (one entry per `get_channel_info` call, in order). -/
structure LoopSt where
  channels : List ChannelRecord
  seen : List String
  logs : List LogEvent
  calls : List String
deriving DecidableEq, Repr

/-- The `for item in response.get('items', [])` body.  A duplicate channel is
skipped before any metadata call; otherwise the id is recorded as seen, the
inspector runs (its logs appended, the call traced), a present result is
shaped and appended, and `if len(channels) >= 50: break` stops the scan.  An
exception from the `int(...)` calls propagates (`Except.error` carries the
logs so far, the call trace, and the exception text). -/
def processItems (fetch : String → Except String ChannelsResponse) :
    List SearchItem → LoopSt → Except (List LogEvent × List String × String) LoopSt
  | [], st => .ok st
  | item :: rest, st =>
    if item.snippet.channelId ∈ st.seen then
      processItems fetch rest st
    else
      match (get_channel_info fetch item.snippet.channelId).1 with
      | none =>
        if st.channels.length ≥ 50 then
          .ok ⟨st.channels, item.snippet.channelId :: st.seen,
               st.logs ++ (get_channel_info fetch item.snippet.channelId).2,
               st.calls ++ [item.snippet.channelId]⟩
        else
          processItems fetch rest
            ⟨st.channels, item.snippet.channelId :: st.seen,
             st.logs ++ (get_channel_info fetch item.snippet.channelId).2,
             st.calls ++ [item.snippet.channelId]⟩
      | some info =>
        match buildRecord item.snippet.channelId info
            (extract_contact_info info.description) with
        | .error e =>
          .error (st.logs ++ (get_channel_info fetch item.snippet.channelId).2,
                  st.calls ++ [item.snippet.channelId], e)
        | .ok rec =>
          if (st.channels ++ [rec]).length ≥ 50 then
            .ok ⟨st.channels ++ [rec], item.snippet.channelId :: st.seen,
                 st.logs ++ (get_channel_info fetch item.snippet.channelId).2,
                 st.calls ++ [item.snippet.channelId]⟩
          else
            processItems fetch rest
              ⟨st.channels ++ [rec], item.snippet.channelId :: st.seen,
               st.logs ++ (get_channel_info fetch item.snippet.channelId).2,
               st.calls ++ [item.snippet.channelId]⟩

/-- The `while len(channels) < 50` loop, fuel-indexed.  `search` is called
with the running request index (the source re-issues an identical request, but
a stateful collaborator may answer differently per call).  Any exception —
from the search call or propagated out of the item scan — is caught by the
`except` of lines 156-158: it is logged at error level and the function
returns the empty list, discarding the accumulated records.  `none` means the
loop had not exited within `fuel` iterations. -/
def runLoop (search : Nat → Except String SearchResponse)
    (fetch : String → Except String ChannelsResponse) (country_code : String) :
    Nat → Nat → LoopSt → Option (List ChannelRecord × List LogEvent × List String)
  | 0, _, _ => none
  | fuel + 1, k, st =>
    if st.channels.length < 50 then
      match search k with
      | .error e =>
        some ([], st.logs ++
          [⟨.error, "Error getting channels from " ++ country_code ++ ": " ++ e⟩],
          st.calls)
      | .ok resp =>
        match processItems fetch resp.items st with
        | .error p =>
          some ([], p.1 ++
            [⟨.error, "Error getting channels from " ++ country_code ++ ": " ++ p.2.2⟩],
            p.2.1)
        | .ok st' => runLoop search fetch country_code fuel (k + 1) st'
    else some (st.channels, st.logs, st.calls)

/-- Method `get_channels_from_country`: run the loop from the empty state; the
function's value is the returned list (with the log stream for observation). -/
def get_channels_from_country (search : Nat → Except String SearchResponse)
    (fetch : String → Except String ChannelsResponse) (country_code : String)
    (fuel : Nat) : Option (List ChannelRecord × List LogEvent) :=
  (runLoop search fetch country_code fuel 0 ⟨[], [], [], []⟩).map (fun r => (r.1, r.2.1))

/-- The trace of metadata-collaborator invocations of one discovery run. -/
def discoverCalls (search : Nat → Except String SearchResponse)
    (fetch : String → Except String ChannelsResponse) (country_code : String)
    (fuel : Nat) : Option (List String) :=
  (runLoop search fetch country_code fuel 0 ⟨[], [], [], []⟩).map (fun r => r.2.2)

/-! ## Provenance predicate and loop invariant -/

/-- Provenance of an emitted record: its fields are exactly the shaped values
of the first item the metadata collaborator returned for its channelId, with
the admission gate passed. -/
def RecProv (fetch : String → Except String ChannelsResponse)
    (rec : ChannelRecord) : Prop :=
  ∃ resp item rest,
    fetch rec.channelId = Except.ok resp ∧
    resp.items = item :: rest ∧
    parseIntD0 item.statistics.subscriberCount = Except.ok rec.subscribers ∧
    rec.subscribers ≤ 50000 ∧
    parseIntD0 item.statistics.viewCount = Except.ok rec.totalViews ∧
    parseIntD0 item.statistics.videoCount = Except.ok rec.totalVideos ∧
    rec.name = item.snippet.title ∧
    rec.createDate = item.snippet.publishedAt ∧
    rec.country = (item.snippet.country).getD "N/A" ∧
    rec.url = (item.snippet.customUrl).getD ("https://youtube.com/channel/" ++ rec.channelId) ∧
    rec.email = (extract_contact_info ((item.snippet.description).getD "")).email ∧
    rec.website = (extract_contact_info ((item.snippet.description).getD "")).website

/-- Invariant of the discovery loop state. -/
def LoopInv (fetch : String → Except String ChannelsResponse) (st : LoopSt) : Prop :=
  st.channels.length ≤ 50 ∧
  List.Pairwise (fun a b => a.channelId ≠ b.channelId) st.channels ∧
  (∀ r ∈ st.channels, r.channelId ∈ st.seen) ∧
  (∀ r ∈ st.channels, RecProv fetch r) ∧
  List.Nodup st.calls ∧
  (∀ c ∈ st.calls, c ∈ st.seen)

/-! ## Concrete collaborator mocks used to evaluate the claims -/

/-- A snippet with no optional field set. -/
def snipEmpty : Snippet := ⟨none, none, none, none, none⟩

/-- Exhausted search source: every request returns the identical one-hit page. -/
def searchStuck : Nat → Except String SearchResponse :=
  fun _ => .ok ⟨[⟨⟨"c1"⟩⟩]⟩

/-- Metadata for a channel rejected by the admission gate (60000 > 50000). -/
def fetchBig : String → Except String ChannelsResponse :=
  fun _ => .ok ⟨[⟨snipEmpty, ⟨.num 60000, .missing, .missing⟩⟩]⟩

/-- The loop state after the single hit of `searchStuck` has been processed
and rejected: no record, the id seen, nothing logged, one metadata call. -/
def stuckSt : LoopSt := ⟨[], ["c1"], [], ["c1"]⟩

/-- Metadata admitting every channel: 100 subscribers, other stats missing. -/
def fetchOk : String → Except String ChannelsResponse :=
  fun _ => .ok ⟨[⟨snipEmpty, ⟨.num 100, .missing, .missing⟩⟩]⟩

/-- The page of three distinct channels of the end-to-end mock. -/
def page3 : SearchResponse := ⟨[⟨⟨"a1"⟩⟩, ⟨⟨"a2"⟩⟩, ⟨⟨"a3"⟩⟩]⟩

/-- The same three channels on every page, forever. -/
def searchRep : Nat → Except String SearchResponse := fun _ => .ok page3

/-- The same three channels on two pages, then the exhausted source fails. -/
def searchExh : Nat → Except String SearchResponse :=
  fun k => if k < 2 then .ok page3 else .error "search results exhausted"

/-- The record shaped for a channel admitted via `fetchOk`. -/
def recOk (cid : String) : ChannelRecord :=
  ⟨cid, none, "https://youtube.com/channel/" ++ cid, "N/A", none, 100, 0, 0, "N/A", "N/A"⟩

/-- The loop state after the three channels of `page3` have been admitted. -/
def mock3St : LoopSt :=
  ⟨[recOk "a1", recOk "a2", recOk "a3"], ["a3", "a2", "a1"], [], ["a1", "a2", "a3"]⟩

/-- Channel ids `c0`, ..., `c49` of the terminating 50-channel mock. -/
def cid50 (i : Nat) : String := "c" ++ Nat.repr i

/-- A page of 50 distinct channels (a full run admits all of them). -/
def search50 : Nat → Except String SearchResponse :=
  fun _ => .ok ⟨(List.range 50).map (fun i => ⟨⟨cid50 i⟩⟩)⟩

/-- Metadata with an empty snippet and all statistics missing. -/
def fetch50 : String → Except String ChannelsResponse :=
  fun _ => .ok ⟨[⟨snipEmpty, ⟨.missing, .missing, .missing⟩⟩]⟩

/-- The record shaped for channel `cid50 i` under `fetch50`. -/
def rec50 (i : Nat) : ChannelRecord :=
  ⟨cid50 i, none, "https://youtube.com/channel/" ++ cid50 i, "N/A", none, 0, 0, 0, "N/A", "N/A"⟩

def out50 : List ChannelRecord := (List.range 50).map rec50

def calls50 : List String := (List.range 50).map cid50

/-- One channel whose metadata has an admitted subscriber count but a
non-parsable view count. -/
def searchOne : Nat → Except String SearchResponse := fun _ => .ok ⟨[⟨⟨"b1"⟩⟩]⟩

def fetchBadViews : String → Except String ChannelsResponse :=
  fun _ => .ok ⟨[⟨snipEmpty, ⟨.num 100, .bad "not a number", .missing⟩⟩]⟩

/-- Metadata whose subscriber count itself is non-parsable. -/
def fetchBadSub : String → Except String ChannelsResponse :=
  fun _ => .ok ⟨[⟨snipEmpty, ⟨.bad "oops", .missing, .missing⟩⟩]⟩

/-- Metadata for the concrete inspector checks: 60000 and 100 subscribers. -/
def fetch60k : String → Except String ChannelsResponse :=
  fun _ => .ok ⟨[⟨snipEmpty, ⟨.num 60000, .missing, .missing⟩⟩]⟩

def fetch100 : String → Except String ChannelsResponse :=
  fun _ => .ok ⟨[⟨snipEmpty, ⟨.num 100, .missing, .missing⟩⟩]⟩

/-- The inspector's dict for a 100-subscriber channel `b1` under `fetch100`. -/
def info100 : ChannelInfo :=
  ⟨none, "", "N/A", none, "https://youtube.com/channel/b1", ⟨.num 100, .missing, .missing⟩⟩

/-- The record shaped from `info100`. -/
def rec100 : ChannelRecord :=
  ⟨"b1", none, "https://youtube.com/channel/b1", "N/A", none, 100, 0, 0, "N/A", "N/A"⟩

/-- A search collaborator that always fails. -/
def searchFail : Nat → Except String SearchResponse := fun _ => .error "boom"

/-- A metadata collaborator that always fails (transport error). -/
def fetchErr : String → Except String ChannelsResponse := fun _ => .error "down"

/-- Output length of a discovery result, for closed statements. -/
def outLen (o : Option (List ChannelRecord × List LogEvent)) : Option Nat :=
  o.map (fun p => p.1.length)

/-- The name fields of a discovery result, for closed statements. -/
def recNames (o : Option (List ChannelRecord × List LogEvent)) :
    Option (List (Option String)) :=
  o.map (fun p => p.1.map (fun rec => rec.name))

/-! ## Lemmas about the website matcher -/

theorem hasPre_takeWhile (pat : List Char) (p : Char → Bool) :
    ∀ k, hasPre pat (k.takeWhile p) = true → hasPre pat k = true := by
  induction pat with
  | nil => intro k _; rfl
  | cons a ps ih =>
    intro k h
    cases k with
    | nil => simp [List.takeWhile, hasPre] at h
    | cons c cs =>
      by_cases hp : p c
      · rw [List.takeWhile_cons_of_pos hp] at h
        simp only [hasPre, Bool.and_eq_true] at h ⊢
        exact ⟨h.1, ih cs h.2⟩
      · rw [List.takeWhile_cons_of_neg hp] at h
        simp [hasPre] at h

theorem hasPre_append_self (p r : List Char) : hasPre p (p ++ r) = true := by
  induction p with
  | nil => rfl
  | cons a ps ih => simp [hasPre, ih]

theorem wsTry_some (www k t : List Char) (h : wsTry www k = some t) :
    t = www ++ k.takeWhile urlBodyChar ∧ excludedHost k = false ∧
      k.takeWhile urlBodyChar ≠ [] := by
  unfold wsTry at h
  by_cases hex : excludedHost k = true
  · rw [if_pos hex] at h; simp at h
  · rw [if_neg hex] at h
    cases htw : k.takeWhile urlBodyChar with
    | nil => rw [htw] at h; simp at h
    | cons c cs =>
      rw [htw] at h
      simp only [Option.some.injEq] at h
      refine ⟨h.symm, by simpa using hex, by simp⟩

theorem wsTry_nil_shape (k t : List Char) (h : wsTry [] k = some t) :
    t ≠ [] ∧ hasPre "youtube.com".data t = false ∧ hasPre "youtu.be".data t = false ∧
      (∀ c ∈ t, urlBodyChar c = true) := by
  obtain ⟨ht, hex, hne⟩ := wsTry_some [] k t h
  rw [List.nil_append] at ht
  subst ht
  rw [excludedHost, Bool.or_eq_false_iff] at hex
  refine ⟨hne, ?_, ?_, ?_⟩
  · cases hyp : hasPre "youtube.com".data (k.takeWhile urlBodyChar) with
    | false => rfl
    | true => exact absurd (hasPre_takeWhile _ _ k hyp) (by simp [hex.1])
  · cases hyp : hasPre "youtu.be".data (k.takeWhile urlBodyChar) with
    | false => rfl
    | true => exact absurd (hasPre_takeWhile _ _ k hyp) (by simp [hex.2])
  · intro c hc; exact List.mem_takeWhile_imp hc

theorem www_data_eq : "www.".data = ['w', 'w', 'w', '.'] := rfl

theorem wsTry_www_shape (k t : List Char) (h : wsTry "www.".data k = some t) :
    t ≠ [] ∧ hasPre "youtube.com".data t = false ∧ hasPre "youtu.be".data t = false ∧
      (∀ c ∈ t, urlBodyChar c = true) := by
  obtain ⟨ht, _, _⟩ := wsTry_some _ k t h
  subst ht
  refine ⟨by rw [www_data_eq]; simp, rfl, rfl, ?_⟩
  intro c hc
  rcases List.mem_append.mp hc with h1 | h2
  · exact (by decide : ∀ x ∈ "www.".data, urlBodyChar x = true) c h1
  · exact List.mem_takeWhile_imp h2

theorem wsTail_shape (rest t : List Char) (h : wsTail rest = some t) :
    t ≠ [] ∧ hasPre "youtube.com".data t = false ∧ hasPre "youtu.be".data t = false ∧
      (∀ c ∈ t, urlBodyChar c = true) := by
  unfold wsTail at h
  by_cases hw : hasPre "www.".data rest = true
  · rw [if_pos hw] at h
    cases hww : wsTry "www.".data (rest.drop 4) with
    | some m =>
      rw [hww] at h
      simp only [Option.some.injEq] at h
      subst h
      exact wsTry_www_shape _ _ hww
    | none =>
      rw [hww] at h
      exact wsTry_nil_shape _ _ h
  · rw [if_neg hw] at h
    exact wsTry_nil_shape _ _ h

theorem specShape_https (t : List Char) (hne : t ≠ [])
    (hy1 : hasPre "youtube.com".data t = false) (hy2 : hasPre "youtu.be".data t = false)
    (hall : ∀ c ∈ t, urlBodyChar c = true) :
    specWebsiteShape ("https://".data ++ t) = true := by
  unfold specWebsiteShape
  rw [if_pos (hasPre_append_self _ _)]
  have hdrop : ("https://".data ++ t).drop 8 = t := by
    have h8 : ("https://".data).length = 8 := rfl
    rw [← h8, List.drop_left]
  rw [hdrop, Bool.and_eq_true]
  constructor
  · unfold specWebsiteTail
    rw [hy1, hy2]
    obtain ⟨c, cs, rfl⟩ := List.exists_cons_of_ne_nil hne
    rfl
  · rw [List.all_eq_true]
    intro c hc
    rcases List.mem_append.mp hc with hc1 | hc2
    · exact (by decide : ∀ x ∈ "https://".data, urlBodyChar x = true) c hc1
    · exact hall c hc2

theorem specShape_http (t : List Char) (hne : t ≠ [])
    (hy1 : hasPre "youtube.com".data t = false) (hy2 : hasPre "youtu.be".data t = false)
    (hall : ∀ c ∈ t, urlBodyChar c = true) :
    specWebsiteShape ("http://".data ++ t) = true := by
  unfold specWebsiteShape
  have hno : hasPre "https://".data ("http://".data ++ t) = false := rfl
  rw [if_neg (fun hcontra => Bool.false_ne_true (hno ▸ hcontra)),
    if_pos (hasPre_append_self _ _)]
  have hdrop : ("http://".data ++ t).drop 7 = t := by
    have h7 : ("http://".data).length = 7 := rfl
    rw [← h7, List.drop_left]
  rw [hdrop, Bool.and_eq_true]
  constructor
  · unfold specWebsiteTail
    rw [hy1, hy2]
    obtain ⟨c, cs, rfl⟩ := List.exists_cons_of_ne_nil hne
    rfl
  · rw [List.all_eq_true]
    intro c hc
    rcases List.mem_append.mp hc with hc1 | hc2
    · exact (by decide : ∀ x ∈ "http://".data, urlBodyChar x = true) c hc1
    · exact hall c hc2

theorem websiteMatchAt_shape (l m : List Char) (h : websiteMatchAt l = some m) :
    specWebsiteShape m = true := by
  unfold websiteMatchAt at h
  by_cases h1 : hasPre "https://".data l = true
  · rw [if_pos h1] at h
    cases hw : wsTail (l.drop 8) with
    | none => rw [hw] at h; simp at h
    | some t =>
      rw [hw] at h
      simp only [Option.map_some', Option.some.injEq] at h
      subst h
      obtain ⟨hne, hy1, hy2, hall⟩ := wsTail_shape _ _ hw
      exact specShape_https t hne hy1 hy2 hall
  · rw [if_neg h1] at h
    by_cases h2 : hasPre "http://".data l = true
    · rw [if_pos h2] at h
      cases hw : wsTail (l.drop 7) with
      | none => rw [hw] at h; simp at h
      | some t =>
        rw [hw] at h
        simp only [Option.map_some', Option.some.injEq] at h
        subst h
        obtain ⟨hne, hy1, hy2, hall⟩ := wsTail_shape _ _ hw
        exact specShape_http t hne hy1 hy2 hall
    · rw [if_neg h2] at h; simp at h

theorem websiteSearch_shape : ∀ l m : List Char,
    websiteSearch l = some m → specWebsiteShape m = true := by
  intro l
  induction l with
  | nil => intro m h; exact websiteMatchAt_shape [] m h
  | cons c rest ih =>
    intro m h
    unfold websiteSearch searchIn at h
    cases hma : websiteMatchAt (c :: rest) with
    | some m' =>
      rw [hma] at h
      simp only [Option.some.injEq] at h
      subst h
      exact websiteMatchAt_shape _ _ hma
    | none =>
      rw [hma] at h
      exact ih m h

/-! ## Claim C2 -/

/-- Claim C2 counterexample: on an input whose URL carries the `www.` prefix
and whose host is the platform's own domain, the extraction does return the
URL — the optional `www.` group backtracks to the empty alternative and the
negative lookahead then inspects `www.youtube.com`, which does not begin with
an excluded host.  (Verified against CPython `re.search` on the source
pattern.) -/
theorem c2_www_youtube_url_returned :
    (extract_contact_info "see https://www.youtube.com/channel/x").website
      = "https://www.youtube.com/channel/x" := by decide

/-- Claim C2 (amended): the exclusion holds for URLs without the `www.`
prefix — `extract("see https://youtube.com/channel/x")` yields website
`"N/A"` — and every non-sentinel website value is an http/https URL whose text
directly after the scheme does not begin with the bare excluded hosts
(`youtube.com`/`youtu.be`) and that consists only of characters that are not
whitespace or angle/quote characters; but the `www.`-prefixed platform URL of
the counterexample is not excluded. -/
theorem c2_website_exclusion_amended :
    (extract_contact_info "see https://youtube.com/channel/x").website = "N/A"
    ∧ (∀ s w, (extract_contact_info s).website = w → w ≠ "N/A" →
        specWebsiteShape w.data = true) := by
  constructor
  · decide
  · intro s w hw hne
    have hrepr : (extract_contact_info s).website
        = match websiteSearch s.data with
          | some m => String.mk m
          | none => "N/A" := rfl
    rw [hrepr] at hw
    cases hws : websiteSearch s.data with
    | none => rw [hws] at hw; exact absurd hw.symm hne
    | some m =>
      rw [hws] at hw
      subst hw
      exact websiteSearch_shape s.data m hws

/-- Witness for C2 (amended), at a concrete input with a retained URL. -/
theorem c2_website_exclusion_witness :
    specWebsiteShape ("https://example.org".data) = true :=
  c2_website_exclusion_amended.2 "visit https://example.org now"
    "https://example.org" (by decide) (by decide)

/-! ## Claim C6 -/

/-- Claim C6: `extract_contact_info` is a total function of the input string
(pure and deterministic by construction in this embedding — it is a plain
function); the absence of an email or website match independently yields the
sentinel `"N/A"` for that field, a present match is returned verbatim, and
`extract("contact me at a@b.com")` returns email `"a@b.com"` and website
`"N/A"`. -/
theorem c6_extractor_total_sentinels :
    extract_contact_info "contact me at a@b.com" = ⟨"a@b.com", "N/A"⟩
    ∧ (∀ s, emailSearch s.data = none → (extract_contact_info s).email = "N/A")
    ∧ (∀ s, websiteSearch s.data = none → (extract_contact_info s).website = "N/A")
    ∧ (∀ s m, emailSearch s.data = some m → (extract_contact_info s).email = String.mk m)
    ∧ (∀ s m, websiteSearch s.data = some m →
        (extract_contact_info s).website = String.mk m) := by
  refine ⟨by decide, ?_, ?_, ?_, ?_⟩
  · intro s h
    have hrepr : (extract_contact_info s).email
        = match emailSearch s.data with
          | some m => String.mk m
          | none => "N/A" := rfl
    rw [hrepr, h]
  · intro s h
    have hrepr : (extract_contact_info s).website
        = match websiteSearch s.data with
          | some m => String.mk m
          | none => "N/A" := rfl
    rw [hrepr, h]
  · intro s m h
    have hrepr : (extract_contact_info s).email
        = match emailSearch s.data with
          | some m => String.mk m
          | none => "N/A" := rfl
    rw [hrepr, h]
  · intro s m h
    have hrepr : (extract_contact_info s).website
        = match websiteSearch s.data with
          | some m => String.mk m
          | none => "N/A" := rfl
    rw [hrepr, h]

/-- Witness for C6 at concrete inputs: a matchless string yields both
sentinels, and the claim's example email is returned verbatim. -/
theorem c6_extractor_witness :
    (extract_contact_info "hello world").email = "N/A"
    ∧ (extract_contact_info "hello world").website = "N/A"
    ∧ (extract_contact_info "contact me at a@b.com").email = "a@b.com" :=
  ⟨c6_extractor_total_sentinels.2.1 "hello world" (by decide),
   c6_extractor_total_sentinels.2.2.1 "hello world" (by decide),
   c6_extractor_total_sentinels.2.2.2.1 "contact me at a@b.com" "a@b.com".data (by decide)⟩

/-! ## Claim C1: the literal loop does not terminate on an exhausted source -/

theorem runLoop_stuck_none : ∀ fuel k,
    runLoop searchStuck fetchBig "US" fuel k stuckSt = none := by
  intro fuel
  induction fuel with
  | zero => intro k; rfl
  | succ n ih =>
    intro k
    have hstep : runLoop searchStuck fetchBig "US" (n + 1) k stuckSt
        = runLoop searchStuck fetchBig "US" n (k + 1) stuckSt := rfl
    rw [hstep]
    exact ih (k + 1)

/-- Claim C1: refuted by the code as written — with an exhausted upstream
source (every request answered by the same already-processed page, its only
channel rejected by the subscriber gate), `while len(channels) < 50` re-issues
the identical request forever: for every iteration bound the fuel-indexed
embedding of `get_channels_from_country` has not returned.  The spec (§4.5,
§9) requires termination here, so this is a bug in the code. -/
theorem c1_discovery_never_terminates_on_exhausted_source :
    ∀ fuel, get_channels_from_country searchStuck fetchBig "US" fuel = none := by
  intro fuel
  cases fuel with
  | zero => rfl
  | succ n =>
    have h1 : get_channels_from_country searchStuck fetchBig "US" (n + 1)
        = (runLoop searchStuck fetchBig "US" n 1 stuckSt).map (fun r => (r.1, r.2.1)) := rfl
    rw [h1, runLoop_stuck_none n 1]
    rfl

/-! ## The repeating three-channel mock never lets the loop exit (for C3) -/

theorem runLoop_rep_none : ∀ fuel k,
    runLoop searchRep fetchOk "US" fuel k mock3St = none := by
  intro fuel
  induction fuel with
  | zero => intro k; rfl
  | succ n ih =>
    intro k
    have hstep : runLoop searchRep fetchOk "US" (n + 1) k mock3St
        = runLoop searchRep fetchOk "US" n (k + 1) mock3St := rfl
    rw [hstep]
    exact ih (k + 1)

theorem gcfc_rep_none : ∀ fuel,
    get_channels_from_country searchRep fetchOk "US" fuel = none := by
  intro fuel
  cases fuel with
  | zero => rfl
  | succ n =>
    have h1 : get_channels_from_country searchRep fetchOk "US" (n + 1)
        = (runLoop searchRep fetchOk "US" n 1 mock3St).map (fun r => (r.1, r.2.1)) := rfl
    rw [h1, runLoop_rep_none n 1]
    rfl

/-! ## Inspector and record-shaping lemmas -/

theorem get_channel_info_some (fetch : String → Except String ChannelsResponse)
    (cid : String) (info : ChannelInfo) (lg : List LogEvent)
    (h : get_channel_info fetch cid = (some info, lg)) :
    ∃ resp item rest,
      fetch cid = Except.ok resp ∧
      resp.items = item :: rest ∧
      info.title = item.snippet.title ∧
      info.description = (item.snippet.description).getD "" ∧
      info.country = (item.snippet.country).getD "N/A" ∧
      info.publishedAt = item.snippet.publishedAt ∧
      info.customUrl = (item.snippet.customUrl).getD ("https://youtube.com/channel/" ++ cid) ∧
      info.statistics = item.statistics ∧
      ∃ sc, parseIntD0 item.statistics.subscriberCount = Except.ok sc ∧ sc ≤ 50000 := by
  unfold get_channel_info at h
  split at h
  · simp at h
  next resp heq =>
    split at h
    · simp at h
    next item rest heqi =>
      split at h
      · simp at h
      next sc heqp =>
        split at h
        · simp at h
        next hgt =>
          simp only [Prod.mk.injEq, Option.some.injEq] at h
          obtain ⟨hinfo, -⟩ := h
          subst hinfo
          exact ⟨resp, item, rest, heq, heqi, rfl, rfl, rfl, rfl, rfl, rfl, sc, heqp,
            by omega⟩

theorem recProv_of_build (fetch : String → Except String ChannelsResponse)
    (cid : String) (info : ChannelInfo) (il : List LogEvent) (rec : ChannelRecord)
    (hgi : get_channel_info fetch cid = (some info, il))
    (hb : buildRecord cid info (extract_contact_info info.description) = .ok rec) :
    RecProv fetch rec ∧ rec.channelId = cid := by
  unfold buildRecord at hb
  split at hb
  · simp at hb
  next subs hsub =>
    split at hb
    · simp at hb
    next views hview =>
      split at hb
      · simp at hb
      next vids hvid =>
        simp only [Except.ok.injEq] at hb
        subst hb
        obtain ⟨resp, item, rest, hf, hi, ht, hd, hc, hp, hu, hst, sc, hsc, hsc50⟩ :=
          get_channel_info_some fetch cid info il hgi
        rw [hst] at hsub hview hvid
        have hsubs_eq : subs = sc := by
          rw [hsub] at hsc
          injection hsc
        subst hsubs_eq
        refine ⟨⟨resp, item, rest, hf, hi, hsub, hsc50, hview, hvid, ht, hp, hc, ?_, ?_, ?_⟩,
          rfl⟩
        · exact hu
        · rw [hd]
        · rw [hd]

/-! ## Loop-invariant preservation -/

theorem loopInv_skip (fetch : String → Except String ChannelsResponse) (st : LoopSt)
    (cid : String) (lgs : List LogEvent) (hinv : LoopInv fetch st) (hm : cid ∉ st.seen) :
    LoopInv fetch ⟨st.channels, cid :: st.seen, lgs, st.calls ++ [cid]⟩ := by
  obtain ⟨h1, h2, h3, h4, h5, h6⟩ := hinv
  have hcalls : cid ∉ st.calls := fun hc => hm (h6 cid hc)
  refine ⟨h1, h2, ?_, h4, ?_, ?_⟩
  · intro r hr; exact List.mem_cons_of_mem _ (h3 r hr)
  · rw [List.nodup_append]
    refine ⟨h5, List.nodup_singleton cid, ?_⟩
    intro a ha hb
    rw [List.mem_singleton] at hb
    subst hb
    exact hcalls ha
  · intro c hc
    rcases List.mem_append.mp hc with h | h
    · exact List.mem_cons_of_mem _ (h6 c h)
    · rw [List.mem_singleton] at h
      subst h
      exact List.mem_cons_self _ _

theorem loopInv_add (fetch : String → Except String ChannelsResponse) (st : LoopSt)
    (cid : String) (lgs : List LogEvent) (rec : ChannelRecord)
    (hinv : LoopInv fetch st) (hm : cid ∉ st.seen) (hlt : st.channels.length < 50)
    (hprov : RecProv fetch rec) (hid : rec.channelId = cid) :
    LoopInv fetch ⟨st.channels ++ [rec], cid :: st.seen, lgs, st.calls ++ [cid]⟩ := by
  obtain ⟨h1, h2, h3, h4, h5, h6⟩ := hinv
  have hcalls : cid ∉ st.calls := fun hc => hm (h6 cid hc)
  refine ⟨?_, ?_, ?_, ?_, ?_, ?_⟩
  · simp only [List.length_append, List.length_singleton]
    omega
  · rw [List.pairwise_append]
    refine ⟨h2, List.pairwise_singleton _ _, ?_⟩
    intro a ha b hb
    rw [List.mem_singleton] at hb
    subst hb
    exact fun hEq => hm ((hEq.trans hid) ▸ h3 a ha)
  · intro r hr
    rcases List.mem_append.mp hr with h | h
    · exact List.mem_cons_of_mem _ (h3 r h)
    · rw [List.mem_singleton] at h
      subst h
      rw [hid]
      exact List.mem_cons_self _ _
  · intro r hr
    rcases List.mem_append.mp hr with h | h
    · exact h4 r h
    · rw [List.mem_singleton] at h
      subst h
      exact hprov
  · rw [List.nodup_append]
    refine ⟨h5, List.nodup_singleton cid, ?_⟩
    intro a ha hb
    rw [List.mem_singleton] at hb
    subst hb
    exact hcalls ha
  · intro c hc
    rcases List.mem_append.mp hc with h | h
    · exact List.mem_cons_of_mem _ (h6 c h)
    · rw [List.mem_singleton] at h
      subst h
      exact List.mem_cons_self _ _

theorem processItems_ok_inv (fetch : String → Except String ChannelsResponse)
    (items : List SearchItem) :
    ∀ st st', processItems fetch items st = .ok st' → st.channels.length < 50 →
      LoopInv fetch st → LoopInv fetch st' ∧ ∀ x ∈ st.seen, x ∈ st'.seen := by
  induction items with
  | nil =>
    intro st st' h _ hinv
    unfold processItems at h
    injection h with h'
    subst h'
    exact ⟨hinv, fun x hx => hx⟩
  | cons item rest ih =>
    intro st st' h hlt hinv
    unfold processItems at h
    by_cases hm : item.snippet.channelId ∈ st.seen
    · rw [if_pos hm] at h
      exact ih st st' h hlt hinv
    · rw [if_neg hm] at h
      rcases hgi : get_channel_info fetch item.snippet.channelId with ⟨r1, il⟩
      rw [hgi] at h
      cases r1 with
      | none =>
        dsimp only at h
        rw [if_neg (by omega)] at h
        obtain ⟨hinv', hsub⟩ :=
          ih _ st' h hlt (loopInv_skip fetch st item.snippet.channelId _ hinv hm)
        exact ⟨hinv', fun x hx => hsub x (List.mem_cons_of_mem _ hx)⟩
      | some info =>
        dsimp only at h
        cases hb : buildRecord item.snippet.channelId info
            (extract_contact_info info.description) with
        | error e =>
          rw [hb] at h
          dsimp only at h
          exact absurd h (by simp)
        | ok rec =>
          rw [hb] at h
          dsimp only at h
          obtain ⟨hprov, hid⟩ :=
            recProv_of_build fetch item.snippet.channelId info il rec hgi hb
          by_cases hlen : (st.channels ++ [rec]).length ≥ 50
          · rw [if_pos hlen] at h
            injection h with h'
            subst h'
            refine ⟨loopInv_add fetch st item.snippet.channelId _ rec hinv hm hlt hprov hid,
              ?_⟩
            intro x hx
            exact List.mem_cons_of_mem _ hx
          · rw [if_neg hlen] at h
            have hlt2 : (st.channels ++ [rec]).length < 50 := by omega
            obtain ⟨hinv', hsub⟩ := ih _ st' h hlt2
              (loopInv_add fetch st item.snippet.channelId _ rec hinv hm hlt hprov hid)
            exact ⟨hinv', fun x hx => hsub x (List.mem_cons_of_mem _ hx)⟩

theorem processItems_err_inv (fetch : String → Except String ChannelsResponse)
    (items : List SearchItem) :
    ∀ st p, processItems fetch items st = .error p → st.channels.length < 50 →
      LoopInv fetch st → List.Nodup p.2.1 := by
  induction items with
  | nil =>
    intro st p h _ _
    unfold processItems at h
    exact absurd h (by simp)
  | cons item rest ih =>
    intro st p h hlt hinv
    unfold processItems at h
    by_cases hm : item.snippet.channelId ∈ st.seen
    · rw [if_pos hm] at h
      exact ih st p h hlt hinv
    · rw [if_neg hm] at h
      rcases hgi : get_channel_info fetch item.snippet.channelId with ⟨r1, il⟩
      rw [hgi] at h
      cases r1 with
      | none =>
        dsimp only at h
        rw [if_neg (by omega)] at h
        exact ih _ p h hlt (loopInv_skip fetch st item.snippet.channelId _ hinv hm)
      | some info =>
        dsimp only at h
        cases hb : buildRecord item.snippet.channelId info
            (extract_contact_info info.description) with
        | error e =>
          rw [hb] at h
          dsimp only at h
          injection h with h'
          subst h'
          exact (loopInv_skip fetch st item.snippet.channelId [] hinv hm).2.2.2.2.1
        | ok rec =>
          rw [hb] at h
          dsimp only at h
          obtain ⟨hprov, hid⟩ :=
            recProv_of_build fetch item.snippet.channelId info il rec hgi hb
          by_cases hlen : (st.channels ++ [rec]).length ≥ 50
          · rw [if_pos hlen] at h
            exact absurd h (by simp)
          · rw [if_neg hlen] at h
            have hlt2 : (st.channels ++ [rec]).length < 50 := by omega
            exact ih _ p h hlt2
              (loopInv_add fetch st item.snippet.channelId _ rec hinv hm hlt hprov hid)

theorem runLoop_inv (search : Nat → Except String SearchResponse)
    (fetch : String → Except String ChannelsResponse) (cc : String) :
    ∀ fuel k st out lg cl,
      runLoop search fetch cc fuel k st = some (out, lg, cl) → LoopInv fetch st →
      out.length ≤ 50 ∧ List.Pairwise (fun a b => a.channelId ≠ b.channelId) out ∧
        (∀ r ∈ out, RecProv fetch r) ∧ List.Nodup cl := by
  intro fuel
  induction fuel with
  | zero =>
    intro k st out lg cl h _
    exact absurd h (by simp [runLoop])
  | succ n ih =>
    intro k st out lg cl h hinv
    unfold runLoop at h
    by_cases hlt : st.channels.length < 50
    · rw [if_pos hlt] at h
      cases hs : search k with
      | error e =>
        rw [hs] at h
        dsimp only at h
        simp only [Option.some.injEq, Prod.mk.injEq] at h
        obtain ⟨hout, hlg, hcl⟩ := h
        subst hout
        subst hcl
        refine ⟨by simp, List.Pairwise.nil, ?_, hinv.2.2.2.2.1⟩
        intro r hr
        cases hr
      | ok resp =>
        rw [hs] at h
        dsimp only at h
        cases hp : processItems fetch resp.items st with
        | error p =>
          rw [hp] at h
          dsimp only at h
          simp only [Option.some.injEq, Prod.mk.injEq] at h
          obtain ⟨hout, hlg, hcl⟩ := h
          subst hout
          subst hcl
          refine ⟨by simp, List.Pairwise.nil, ?_, ?_⟩
          · intro r hr
            cases hr
          · exact processItems_err_inv fetch resp.items st p hp hlt hinv
        | ok st' =>
          rw [hp] at h
          dsimp only at h
          obtain ⟨hinv', -⟩ := processItems_ok_inv fetch resp.items st st' hp hlt hinv
          exact ih (k + 1) st' out lg cl h hinv'
    · rw [if_neg hlt] at h
      simp only [Option.some.injEq, Prod.mk.injEq] at h
      obtain ⟨hout, hlg, hcl⟩ := h
      subst hout
      subst hcl
      exact ⟨hinv.1, hinv.2.1, hinv.2.2.2.1, hinv.2.2.2.2.1⟩

theorem loopInv_init (fetch : String → Except String ChannelsResponse) :
    LoopInv fetch ⟨[], [], [], []⟩ := by
  refine ⟨by simp, List.Pairwise.nil, ?_, ?_, List.Pairwise.nil, ?_⟩ <;>
    exact fun x hx => absurd hx (by simp)

theorem gcfc_inv (search : Nat → Except String SearchResponse)
    (fetch : String → Except String ChannelsResponse) (cc : String) (fuel : Nat)
    (out : List ChannelRecord) (lg : List LogEvent)
    (h : get_channels_from_country search fetch cc fuel = some (out, lg)) :
    out.length ≤ 50 ∧ List.Pairwise (fun a b => a.channelId ≠ b.channelId) out ∧
      ∀ r ∈ out, RecProv fetch r := by
  unfold get_channels_from_country at h
  cases hr : runLoop search fetch cc fuel 0 ⟨[], [], [], []⟩ with
  | none =>
    rw [hr] at h
    exact absurd h (by simp)
  | some t =>
    rw [hr] at h
    obtain ⟨o, l, c⟩ := t
    simp only [Option.map_some', Option.some.injEq, Prod.mk.injEq] at h
    obtain ⟨ho, -⟩ := h
    subst ho
    have hmain := runLoop_inv search fetch cc fuel 0 _ o l c hr (loopInv_init fetch)
    exact ⟨hmain.1, hmain.2.1, hmain.2.2.1⟩

/-! ## The terminating 50-channel mock run -/

theorem mock50_run : get_channels_from_country search50 fetch50 "US" 2 = some (out50, []) := by
  rfl

theorem mock50_calls : discoverCalls search50 fetch50 "US" 2 = some calls50 := by
  rfl

/-! ## Claim C3 -/

/-- Claim C3 counterexample: with the mocked search source that serves the
same three admitted channels on two pages and then fails (the source is
exhausted), the discovery run returns 0 records, not the 3 the claim states:
the literal loop only exits at 50 accumulated records or on an error, and the
error path discards the three accumulated records. -/
theorem c3_mock_run_returns_empty_not_three :
    outLen (get_channels_from_country searchExh fetchOk "US" 10) = some 0 := by
  rfl

/-- Claim C3 (amended): every discovery run that returns yields at most 50
records with pairwise-distinct channelIds, and with the mocked three-channel
page the scan accumulates exactly the 3 deduplicated records — a second scan
of the same page adds nothing (3, not 6); but the literal loop exits only at
50 records or on an error, so with the page repeating forever the operation
never returns, and when the exhausted mock raises instead it returns the
empty list. -/
theorem c3_cap_dedup_amended :
    (∀ (search : Nat → Except String SearchResponse)
        (fetch : String → Except String ChannelsResponse) (cc : String) (fuel : Nat)
        (out : List ChannelRecord) (lg : List LogEvent),
        get_channels_from_country search fetch cc fuel = some (out, lg) →
        out.length ≤ 50 ∧ List.Pairwise (fun a b => a.channelId ≠ b.channelId) out)
    ∧ (processItems fetchOk page3.items ⟨[], [], [], []⟩ = .ok mock3St
        ∧ mock3St.channels.length = 3
        ∧ processItems fetchOk page3.items mock3St = .ok mock3St)
    ∧ (∀ fuel, get_channels_from_country searchRep fetchOk "US" fuel = none) := by
  refine ⟨?_, ⟨rfl, rfl, rfl⟩, gcfc_rep_none⟩
  intro search fetch cc fuel out lg h
  obtain ⟨h1, h2, -⟩ := gcfc_inv search fetch cc fuel out lg h
  exact ⟨h1, h2⟩

/-- Witness for C3 (amended) on the terminating 50-channel run. -/
theorem c3_cap_dedup_witness : out50.length ≤ 50 :=
  (c3_cap_dedup_amended.1 search50 fetch50 "US" 2 out50 [] mock50_run).1

/-! ## Claim C4 -/

/-- Claim C4: every record emitted by a discovery run that returns satisfies
`subscribers ≤ 50000`; a fetched `subscriberCount` of 60000 yields an absent
inspection result, while 100 yields a present one whose shaped record has
`subscribers = 100`. -/
theorem c4_subscriber_threshold :
    (∀ (search : Nat → Except String SearchResponse)
        (fetch : String → Except String ChannelsResponse) (cc : String) (fuel : Nat)
        (out : List ChannelRecord) (lg : List LogEvent),
        get_channels_from_country search fetch cc fuel = some (out, lg) →
        ∀ rec ∈ out, rec.subscribers ≤ 50000)
    ∧ get_channel_info fetch60k "b1" = (none, [])
    ∧ get_channel_info fetch100 "b1" = (some info100, [])
    ∧ buildRecord "b1" info100 (extract_contact_info info100.description) = .ok rec100
    ∧ rec100.subscribers = 100 := by
  refine ⟨?_, rfl, rfl, rfl, rfl⟩
  intro search fetch cc fuel out lg h rec hrec
  obtain ⟨-, -, hprov⟩ := gcfc_inv search fetch cc fuel out lg h
  obtain ⟨resp, item, rest, -, -, -, hle, -, -, -, -, -, -, -, -⟩ := hprov rec hrec
  exact hle

/-- Witness for C4 on the terminating 50-channel run. -/
theorem c4_subscriber_threshold_witness : (rec50 0).subscribers ≤ 50000 :=
  c4_subscriber_threshold.1 search50 fetch50 "US" 2 out50 [] mock50_run (rec50 0) (by decide)

/-! ## Claim C5 -/

/-- Claim C5 counterexample: a channel whose metadata has an admitted
`subscriberCount` of 100 but a non-parsable `viewCount` does not yield a
record with `totalViews = 0`: the `int(...)` call raises inside the
aggregation loop, the region-level handler catches it, and the run returns
the empty list with an error log — an aborted run. -/
theorem c5_bad_viewcount_aborts_run :
    get_channels_from_country searchOne fetchBadViews "US" 5
      = some ([], [⟨LogLevel.error, "Error getting channels from US: not a number"⟩]) := by
  rfl

/-- Claim C5 (amended): missing numeric statistics are defaulted to 0 field
by field and never raise — every emitted record's numeric fields are the
successfully parsed values of the fetched statistics, and parsing a missing
field yields 0; but non-parsable values are not defaulted: a non-parsable
`subscriberCount` makes the inspector return absence with an error log, and a
non-parsable `viewCount`/`videoCount` of an admitted channel raises in the
aggregation loop, aborting the region's run with an empty result. -/
theorem c5_defaults_amended :
    (∀ (search : Nat → Except String SearchResponse)
        (fetch : String → Except String ChannelsResponse) (cc : String) (fuel : Nat)
        (out : List ChannelRecord) (lg : List LogEvent),
        get_channels_from_country search fetch cc fuel = some (out, lg) →
        ∀ rec ∈ out, ∃ resp item rest,
          fetch rec.channelId = Except.ok resp ∧ resp.items = item :: rest ∧
          parseIntD0 item.statistics.subscriberCount = Except.ok rec.subscribers ∧
          parseIntD0 item.statistics.viewCount = Except.ok rec.totalViews ∧
          parseIntD0 item.statistics.videoCount = Except.ok rec.totalVideos)
    ∧ parseIntD0 JNum.missing = Except.ok 0
    ∧ (∀ (fetch : String → Except String ChannelsResponse) (cid : String)
        (resp : ChannelsResponse) (item : ChannelData) (rest : List ChannelData)
        (s : String), fetch cid = Except.ok resp → resp.items = item :: rest →
        parseIntD0 item.statistics.subscriberCount = Except.error s →
        get_channel_info fetch cid
          = (none, [⟨LogLevel.error, "Error getting channel info for " ++ cid ++ ": " ++ s⟩]))
    ∧ (∀ (search : Nat → Except String SearchResponse)
        (fetch : String → Except String ChannelsResponse) (cc : String) (fuel k : Nat)
        (st : LoopSt) (resp : SearchResponse) (p : List LogEvent × List String × String),
        st.channels.length < 50 → search k = Except.ok resp →
        processItems fetch resp.items st = Except.error p →
        runLoop search fetch cc (fuel + 1) k st
          = some ([], p.1 ++
              [⟨LogLevel.error, "Error getting channels from " ++ cc ++ ": " ++ p.2.2⟩],
              p.2.1)) := by
  refine ⟨?_, rfl, ?_, ?_⟩
  · intro search fetch cc fuel out lg h rec hrec
    obtain ⟨-, -, hprov⟩ := gcfc_inv search fetch cc fuel out lg h
    obtain ⟨resp, item, rest, h1, h2, h3, -, h5, h6, -, -, -, -, -, -⟩ := hprov rec hrec
    exact ⟨resp, item, rest, h1, h2, h3, h5, h6⟩
  · intro fetch cid resp item rest s hf hi hp
    unfold get_channel_info
    rw [hf]
    dsimp only
    rw [hi]
    dsimp only
    rw [hp]
  · intro search fetch cc fuel k st resp p hlt hs hp
    unfold runLoop
    rw [if_pos hlt, hs]
    dsimp only
    rw [hp]

/-- Witness for C5 (amended): a concrete non-parsable subscriber count makes
the inspector return absence with the error log. -/
theorem c5_defaults_witness :
    get_channel_info fetchBadSub "b1"
      = (none, [⟨LogLevel.error, "Error getting channel info for b1: oops"⟩]) :=
  c5_defaults_amended.2.2.1 fetchBadSub "b1"
    ⟨[⟨snipEmpty, ⟨.bad "oops", .missing, .missing⟩⟩]⟩
    ⟨snipEmpty, ⟨.bad "oops", .missing, .missing⟩⟩ [] "oops" rfl rfl rfl

/-! ## Claim C7 -/

/-- Claim C7: a search-collaborator failure aborts the whole region's
discovery: at whatever point of the run the next search call fails, the
function returns the empty list — the records accumulated so far are
discarded, no partial salvage — and the failure is logged at error level,
which differs from warning level. -/
theorem c7_search_error_aborts_region :
    (∀ (search : Nat → Except String SearchResponse)
        (fetch : String → Except String ChannelsResponse) (cc : String) (fuel : Nat)
        (e : String), search 0 = Except.error e →
        get_channels_from_country search fetch cc (fuel + 1)
          = some ([], [⟨LogLevel.error, "Error getting channels from " ++ cc ++ ": " ++ e⟩]))
    ∧ (∀ (search : Nat → Except String SearchResponse)
        (fetch : String → Except String ChannelsResponse) (cc : String) (fuel k : Nat)
        (st : LoopSt) (e : String), search k = Except.error e → st.channels.length < 50 →
        runLoop search fetch cc (fuel + 1) k st
          = some ([], st.logs ++
              [⟨LogLevel.error, "Error getting channels from " ++ cc ++ ": " ++ e⟩],
              st.calls))
    ∧ LogLevel.error ≠ LogLevel.warning := by
  refine ⟨?_, ?_, by decide⟩
  · intro search fetch cc fuel e hs
    unfold get_channels_from_country runLoop
    rw [if_pos (by decide : ((⟨[], [], [], []⟩ : LoopSt).channels.length < 50)), hs]
    rfl
  · intro search fetch cc fuel k st e hs hlt
    unfold runLoop
    rw [if_pos hlt, hs]

/-- Witness for C7: a failing search aborts a fresh run, and a mid-run
failure discards the three records already accumulated. -/
theorem c7_search_error_witness :
    get_channels_from_country searchFail fetchOk "US" 1
      = some ([], [⟨LogLevel.error, "Error getting channels from US: boom"⟩])
    ∧ runLoop searchFail fetchOk "US" 1 5 mock3St
      = some ([], [⟨LogLevel.error, "Error getting channels from US: boom"⟩],
          ["a1", "a2", "a3"]) :=
  ⟨c7_search_error_aborts_region.1 searchFail fetchOk "US" 0 "boom" rfl,
   c7_search_error_aborts_region.2.1 searchFail fetchOk "US" 0 5 mock3St "boom" rfl
     (by decide)⟩

/-! ## Claim C8 -/

/-- Claim C8: the inspector returns absence — never a propagated exception —
exactly when the metadata fetch fails, or the response reports no items, or
the subscriber count is non-parsable (unexpected response shape), or the
parsed count exceeds 50000; a transport failure is caught and logged at error
level; and inside the page scan an absent inspection result lets the loop
continue with the remaining items. -/
theorem c8_inspector_absence_conditions :
    ∀ (fetch : String → Except String ChannelsResponse) (cid : String),
      ((get_channel_info fetch cid).1 = none ↔
        (∃ e, fetch cid = Except.error e) ∨
        (∃ resp, fetch cid = Except.ok resp ∧ resp.items = []) ∨
        (∃ resp item rest, fetch cid = Except.ok resp ∧ resp.items = item :: rest ∧
          ((∃ s, parseIntD0 item.statistics.subscriberCount = Except.error s) ∨
           (∃ sc, parseIntD0 item.statistics.subscriberCount = Except.ok sc ∧ 50000 < sc))))
      ∧ (∀ e, fetch cid = Except.error e →
          get_channel_info fetch cid
            = (none, [⟨LogLevel.error,
                "HTTP error getting channel info for " ++ cid ++ ": " ++ e⟩]))
      ∧ (∀ (item : SearchItem) (rest : List SearchItem) (st : LoopSt),
          item.snippet.channelId = cid → cid ∉ st.seen →
          ¬ st.channels.length ≥ 50 → (get_channel_info fetch cid).1 = none →
          processItems fetch (item :: rest) st
            = processItems fetch rest
                ⟨st.channels, cid :: st.seen, st.logs ++ (get_channel_info fetch cid).2,
                 st.calls ++ [cid]⟩) := by
  intro fetch cid
  refine ⟨?_, ?_, ?_⟩
  · cases hf : fetch cid with
    | error e =>
      have hval : get_channel_info fetch cid
          = (none, [⟨LogLevel.error,
              "HTTP error getting channel info for " ++ cid ++ ": " ++ e⟩]) := by
        unfold get_channel_info
        rw [hf]
      constructor
      · intro _
        exact .inl ⟨e, rfl⟩
      · intro _
        rw [hval]
    | ok resp =>
      cases hi : resp.items with
      | nil =>
        have hval : get_channel_info fetch cid
            = (none, [⟨LogLevel.warning, "No information found for channel " ++ cid⟩]) := by
          unfold get_channel_info
          rw [hf]
          dsimp only
          rw [hi]
        constructor
        · intro _
          exact .inr (.inl ⟨resp, rfl, hi⟩)
        · intro _
          rw [hval]
      | cons item rest =>
        cases hp : parseIntD0 item.statistics.subscriberCount with
        | error s =>
          have hval : get_channel_info fetch cid
              = (none, [⟨LogLevel.error,
                  "Error getting channel info for " ++ cid ++ ": " ++ s⟩]) := by
            unfold get_channel_info
            rw [hf]
            dsimp only
            rw [hi]
            dsimp only
            rw [hp]
          constructor
          · intro _
            exact .inr (.inr ⟨resp, item, rest, rfl, hi, .inl ⟨s, hp⟩⟩)
          · intro _
            rw [hval]
        | ok sc =>
          by_cases hgt : sc > 50000
          · have hval : get_channel_info fetch cid = (none, []) := by
              unfold get_channel_info
              rw [hf]
              dsimp only
              rw [hi]
              dsimp only
              rw [hp]
              dsimp only
              rw [if_pos hgt]
            constructor
            · intro _
              exact .inr (.inr ⟨resp, item, rest, rfl, hi, .inr ⟨sc, hp, hgt⟩⟩)
            · intro _
              rw [hval]
          · have hval : (get_channel_info fetch cid).1.isSome = true := by
              unfold get_channel_info
              rw [hf]
              dsimp only
              rw [hi]
              dsimp only
              rw [hp]
              dsimp only
              rw [if_neg hgt]
              rfl
            constructor
            · intro habs
              rw [habs] at hval
              simp at hval
            · intro hcases
              exfalso
              rcases hcases with ⟨e, he⟩ | ⟨resp', hrf, hri⟩ |
                ⟨resp', item', rest', hrf, hri, hbad⟩
              · simp at he
              · injection hrf with h'
                subst h'
                rw [hi] at hri
                simp at hri
              · injection hrf with h'
                subst h'
                rw [hi] at hri
                injection hri with h1 h2
                subst h1
                subst h2
                rcases hbad with ⟨s, hs⟩ | ⟨sc', hsc', hgt'⟩
                · rw [hp] at hs
                  simp at hs
                · rw [hp] at hsc'
                  injection hsc' with h''
                  subst h''
                  exact hgt hgt'
  · intro e he
    unfold get_channel_info
    rw [he]
  · intro item rest st hcid hm h50 habs
    rcases hgiv : get_channel_info fetch cid with ⟨r1, il⟩
    rw [hgiv] at habs
    dsimp only at habs
    subst habs
    conv_lhs => unfold processItems
    rw [hcid, if_neg hm, hgiv]
    dsimp only
    rw [if_neg h50]

/-- Witness for C8: a concrete transport failure yields absence with the
error-level log, and the absence direction of the characterisation holds. -/
theorem c8_inspector_witness :
    get_channel_info fetchErr "b1"
      = (none, [⟨LogLevel.error, "HTTP error getting channel info for b1: down"⟩])
    ∧ (get_channel_info fetchErr "b1").1 = none :=
  ⟨(c8_inspector_absence_conditions fetchErr "b1").2.1 "down" rfl,
   ((c8_inspector_absence_conditions fetchErr "b1").1).mpr (.inl ⟨"down", rfl⟩)⟩

/-! ## Claim C9 -/

/-- Claim C9 counterexample: a terminating 50-channel run whose snippets all
lack `title` emits records whose `name` is Python `None` (embedded as `none`),
not a string and not the `"N/A"` sentinel: `channel_info.get('title', 'N/A')`
returns the stored `None` because the key is always present in the
inspector's dict. -/
theorem c9_null_name_emitted :
    recNames (get_channels_from_country search50 fetch50 "US" 2)
      = some (List.replicate 50 none) := by
  rfl

/-- Claim C9 (amended): in every emitted record, `country`, `url`, `email`
and `website` are strings (with `"N/A"`/canonical-URL defaults applied when
data is absent); but `name` and `createDate` mirror the fetched snippet's
`title` and `publishedAt` exactly, so they are null when the snippet lacks
those values — the aggregator's `.get` default never applies to the
always-present keys of the inspector's dict. -/
theorem c9_nonnumeric_provenance_amended :
    ∀ (search : Nat → Except String SearchResponse)
      (fetch : String → Except String ChannelsResponse) (cc : String) (fuel : Nat)
      (out : List ChannelRecord) (lg : List LogEvent),
      get_channels_from_country search fetch cc fuel = some (out, lg) →
      ∀ rec ∈ out, ∃ resp item rest,
        fetch rec.channelId = Except.ok resp ∧ resp.items = item :: rest ∧
        rec.name = item.snippet.title ∧
        rec.createDate = item.snippet.publishedAt ∧
        rec.country = (item.snippet.country).getD "N/A" ∧
        rec.url = (item.snippet.customUrl).getD
            ("https://youtube.com/channel/" ++ rec.channelId) ∧
        rec.email = (extract_contact_info ((item.snippet.description).getD "")).email ∧
        rec.website = (extract_contact_info ((item.snippet.description).getD "")).website := by
  intro search fetch cc fuel out lg h rec hrec
  obtain ⟨-, -, hprov⟩ := gcfc_inv search fetch cc fuel out lg h
  obtain ⟨resp, item, rest, h1, h2, -, -, -, -, h7, h8, h9, h10, h11, h12⟩ := hprov rec hrec
  exact ⟨resp, item, rest, h1, h2, h7, h8, h9, h10, h11, h12⟩

/-- Witness for C9 (amended) at the first record of the 50-channel run. -/
theorem c9_nonnumeric_witness :
    (rec50 0).name = none ∧ (rec50 0).country = "N/A" := by
  obtain ⟨resp, item, rest, h1, h2, h3, -, h5, -⟩ :=
    c9_nonnumeric_provenance_amended search50 fetch50 "US" 2 out50 [] mock50_run
      (rec50 0) (by decide)
  have hresp : Except.ok
      (⟨[⟨snipEmpty, ⟨JNum.missing, JNum.missing, JNum.missing⟩⟩]⟩ : ChannelsResponse)
      = Except.ok resp := h1
  injection hresp with hr
  subst hr
  have h2' : [(⟨snipEmpty, ⟨JNum.missing, JNum.missing, JNum.missing⟩⟩ : ChannelData)]
      = item :: rest := h2
  injection h2' with hi1 hi2
  subst hi1
  exact ⟨h3.trans rfl, h5.trans rfl⟩

/-! ## Claim C10 -/

/-- Claim C10: within one discovery run the metadata collaborator is invoked
at most once per channelId — the call trace of any returning run has no
duplicate channelIds — and an item whose channelId is already in the seen set
is skipped before any metadata call, leaving the scan state unchanged, also
when the earlier inspection had rejected the channel. -/
theorem c10_metadata_fetched_once :
    (∀ (search : Nat → Except String SearchResponse)
        (fetch : String → Except String ChannelsResponse) (cc : String) (fuel : Nat)
        (calls : List String),
        discoverCalls search fetch cc fuel = some calls → List.Nodup calls)
    ∧ (∀ (fetch : String → Except String ChannelsResponse) (item : SearchItem)
        (rest : List SearchItem) (st : LoopSt), item.snippet.channelId ∈ st.seen →
        processItems fetch (item :: rest) st = processItems fetch rest st) := by
  constructor
  · intro search fetch cc fuel calls h
    unfold discoverCalls at h
    cases hr : runLoop search fetch cc fuel 0 ⟨[], [], [], []⟩ with
    | none =>
      rw [hr] at h
      exact absurd h (by simp)
    | some t =>
      rw [hr] at h
      obtain ⟨o, l, c⟩ := t
      simp only [Option.map_some', Option.some.injEq] at h
      subst h
      exact (runLoop_inv search fetch cc fuel 0 _ o l c hr (loopInv_init fetch)).2.2.2
  · intro fetch item rest st hm
    conv_lhs => unfold processItems
    rw [if_pos hm]

/-- Witness for C10: the 50-channel run's call trace has no duplicates, and a
concrete already-seen item is skipped without touching the state. -/
theorem c10_metadata_witness :
    List.Nodup calls50
    ∧ processItems fetchOk [⟨⟨"a1"⟩⟩] mock3St = processItems fetchOk [] mock3St :=
  ⟨c10_metadata_fetched_once.1 search50 fetch50 "US" 2 calls50 mock50_calls,
   c10_metadata_fetched_once.2 fetchOk ⟨⟨"a1"⟩⟩ [] mock3St (by decide)⟩
